import Mathlib

/-!
Verification of the visualEyes plotting core (src/visualeyes/core/plotting.py).

Gaze coordinates are Python floats; the filtering code only compares them,
so we embed a float as `Option ℚ`, where `none` stands for NaN.  Every IEEE
comparison with NaN is false, which the `nan*` helpers reproduce.
-/

namespace VisualEyes

/-- One row of the gaze dataframe.  `x`/`y` are the coordinate columns
(`xpos`/`ypos`, or `axp`/`ayp` for duration-weighted data); `stime`/`etime`
are the fixation interval columns used by the duration-weighted branch of
`plot_as_scatter`. -/
structure GazeRow where
  x : Option ℚ
  y : Option ℚ
  stime : ℚ
  etime : ℚ
deriving DecidableEq

/-- Which coordinate-column pair the dataframe carries: `plain` is
`xpos`/`ypos`, `durwt` is `axp`/`ayp` (with `stime`/`etime`). -/
inductive DataKind where
  | plain
  | durwt
deriving DecidableEq

/-- A validated gaze dataframe: its kind records the coordinate columns it
contains (the column check done by `dataframe_validation`). -/
structure Dataset where
  kind : DataKind
  rows : List GazeRow
deriving DecidableEq

/-- `a < b` on a possibly-NaN float: false when `a` is NaN. -/
def nanLt (a : Option ℚ) (b : ℚ) : Bool :=
  match a with
  | none => false
  | some q => decide (q < b)

/-- `a >= b` on a possibly-NaN float: false when `a` is NaN. -/
def nanGe (a : Option ℚ) (b : ℚ) : Bool :=
  match a with
  | none => false
  | some q => decide (b ≤ q)

/-- `a <= b` on a possibly-NaN float: false when `a` is NaN. -/
def nanLe (a : Option ℚ) (b : ℚ) : Bool :=
  match a with
  | none => false
  | some q => decide (q ≤ b)

/-- The out-of-bounds test of `plot_as_scatter` (plotting.py lines 46-50):
a row is flagged when `x < 0` or `x >= screen_width`, or `y < 0` or
`y >= screen_height`.  NaN coordinates are never flagged, since every
comparison with NaN is false. -/
def scatterOutOfBounds (screenH screenW : ℚ) (r : GazeRow) : Bool :=
  (nanLt r.x 0 || nanGe r.x screenW) || (nanLt r.y 0 || nanGe r.y screenH)

/-- The cleaning step of `plot_as_scatter` (line 53): drop the flagged rows,
keep the rest in order.  `data.drop(index=out_of_bounds)` on a default
`RangeIndex` removes exactly the flagged positions. -/
def scatterClean (screenH screenW : ℚ) (rows : List GazeRow) : List GazeRow :=
  rows.filter (fun r => !scatterOutOfBounds screenH screenW r)

/-- The NaN filter of `plot_heatmap` (line 170):
`data.dropna(subset=['xpos', 'ypos'])`. -/
def heatDropna (rows : List GazeRow) : List GazeRow :=
  rows.filter (fun r => r.x.isSome && r.y.isSome)

/-- The bounds filter of `plot_heatmap` (lines 176-177): keep rows with
`xpos >= 0`, `xpos <= screen_width`, `ypos >= 0` and `ypos <= screen_height`
(upper bounds inclusive).  Comparisons with NaN are false. -/
def heatInBounds (screenH screenW : ℚ) (r : GazeRow) : Bool :=
  (nanGe r.x 0 && nanLe r.x screenW) && (nanGe r.y 0 && nanLe r.y screenH)

/-- The full row filtering of `plot_heatmap` (lines 170 and 176-177):
drop NaN rows, then drop rows outside the (inclusive) screen bounds. -/
def heatClean (screenH screenW : ℚ) (rows : List GazeRow) : List GazeRow :=
  (heatDropna rows).filter (heatInBounds screenH screenW)

/-- Python exceptions raised by the embedded functions. -/
inductive PyError where
  | valueError
  | attributeError
  | validationError
  | zeroDivisionError
deriving DecidableEq

/-- Python `int(q)`: truncation toward zero (`Int.div` is T-division). -/
def pyInt (q : ℚ) : ℤ :=
  Int.tdiv q.num q.den

/-- Round-half-to-even on a rational, the tie rule of Python `round`. -/
def roundHalfEven (q : ℚ) : ℤ :=
  let f := ⌊q⌋
  let frac := q - f
  if frac < 1 / 2 then f
  else if 1 / 2 < frac then f + 1
  else if f % 2 = 0 then f else f + 1

/-- Python `round(q, 2)`: round to two decimal places, ties to even. -/
def pyRound2 (q : ℚ) : ℚ :=
  (roundHalfEven (100 * q) : ℚ) / 100

/-- Python `max` over a non-empty list: `max(d :: ds)`. -/
def pyMax (d : ℚ) (ds : List ℚ) : ℚ :=
  ds.foldl max d

/-- Modelled from the spec: `screen_dimensions_validation` (utility.py, absent
from src/) "Given screen dimensions, confirms a 2-element positive-numeric
tuple" and fails with a ValidationError otherwise.  The pair structure is
carried by the argument types, so only positivity is checked. -/
def screenDimensionsValidation (screenH screenW : ℚ) : Except PyError Unit :=
  if 0 < screenH ∧ 0 < screenW then Except.ok () else Except.error PyError.validationError

/-- Embedding of `plot_as_scatter` (plotting.py lines 8-103).  The returned
value is the list of rows actually plotted (the cleaned data); figure styling
is rendering detail.  Control flow, in source order:
* `screen_dimensions_validation` (spec-modelled, utility.py absent);
* `dataframe_validation` extracts the coordinate columns — a `Dataset`
  carries the required columns by construction, so it cannot fail here;
* the out-of-bounds rows are dropped (lines 46-53);
* on `axp`/`ayp` data the fixation durations are computed; Python `max([])`
  raises ValueError when no row remains (line 79), and the marker scaling
  divides by `round(max, 2)`, a ZeroDivisionError when that rounds to zero
  (line 80);
* with `aoi_definitions` not None, line 92 evaluates `ax.overlay(...)`:
  matplotlib `Axes` has no attribute `overlay`, so the attribute lookup
  raises AttributeError.
`scatterRender` is the post-cleaning part (lines 56-92); `plot_as_scatter`
itself chains validation, cleaning and rendering. -/
def scatterRender (kind : DataKind) (clean : List GazeRow)
    (aoiGiven : Bool) : Except PyError (List GazeRow) :=
  match kind with
  | DataKind.durwt =>
    match clean.map (fun r => r.etime - r.stime) with
    | [] => Except.error PyError.valueError
    | d :: ds =>
      if pyRound2 (pyMax d ds) = 0 then Except.error PyError.zeroDivisionError
      else if aoiGiven then Except.error PyError.attributeError
      else Except.ok clean
  | DataKind.plain =>
    if aoiGiven then Except.error PyError.attributeError
    else Except.ok clean

def plot_as_scatter (data : Dataset) (screenH screenW : ℚ)
    (aoiGiven : Bool) : Except PyError (List GazeRow) :=
  match screenDimensionsValidation screenH screenW with
  | Except.error e => Except.error e
  | Except.ok _ =>
    scatterRender data.kind (scatterClean screenH screenW data.rows) aoiGiven

/-- The `bins` argument of `plot_heatmap`, a loosely typed Python value:
`None`, an integer, a tuple/list/array of integers, or anything else
(e.g. a float or a string). -/
inductive BinsArg where
  | noneArg
  | intArg (n : ℤ)
  | seqArg (l : List ℤ)
  | otherArg
deriving DecidableEq

/-- The bins resolution of `plot_heatmap` (plotting.py lines 179-188):
`None` gives `int(width/20)` by `int(height/20)`; an integer is used for
both dimensions; a length-2 tuple/list/array gives `(bins_x, bins_y)`;
anything else raises `ValueError`. -/
def binsResolve (screenH screenW : ℚ) (bins : BinsArg) : Except PyError (ℤ × ℤ) :=
  match bins with
  | BinsArg.noneArg => Except.ok (pyInt (screenW / 20), pyInt (screenH / 20))
  | BinsArg.intArg n => Except.ok (n, n)
  | BinsArg.seqArg l =>
    match l with
    | [b1, b2] => Except.ok (b1, b2)
    | _ => Except.error PyError.valueError
  | BinsArg.otherArg => Except.error PyError.valueError

/-- `np.histogram2d(xs, ys, bins=[bx, by])` (line 190): raises ValueError
unless both bin counts are positive; the count matrix itself is rendering
detail, so the embedding records which samples and bin counts feed it. -/
def histogram2d (rows : List GazeRow) (b1 b2 : ℤ) :
    Except PyError (List GazeRow × ℤ × ℤ) :=
  if 1 ≤ b1 ∧ 1 ≤ b2 then Except.ok (rows, b1, b2) else Except.error PyError.valueError

/-- Rectangle or circle, the two recognized AOI shapes. -/
inductive Shape where
  | rectangle
  | circle
deriving DecidableEq

/-- An AOI definition dictionary: a shape tag and a coordinate sequence. -/
structure AOIDef where
  shape : Shape
  coordinates : List ℚ
deriving DecidableEq

/-- Modelled from the spec: `aoi_definitions_validation` (utility.py, absent
from src/) "confirms each entry has a recognized shape and the correct
coordinate arity, and that coordinates fall within screen bounds". -/
def aoiValid (screenH screenW : ℚ) (aoi : AOIDef) : Bool :=
  match aoi.shape, aoi.coordinates with
  | Shape.rectangle, [x1, x2, y1, y2] =>
    decide (0 ≤ x1 ∧ x2 ≤ screenW ∧ 0 ≤ y1 ∧ y2 ≤ screenH)
  | Shape.circle, [cx, cy, r] =>
    decide (0 ≤ cx - r ∧ cx + r ≤ screenW ∧ 0 ≤ cy - r ∧ cy + r ≤ screenH)
  | _, _ => false

/-- One drawing command issued by `overlay_aoi` on the axes. -/
inductive DrawCmd where
  | polyline (xs ys : List ℚ)
  | circleBoundary (cx cy r : ℚ)
deriving DecidableEq

/-- The per-AOI drawing of `overlay_aoi` (plotting.py lines 134-154):
a rectangle's four coordinates pass through `map(int, ...)` and the
boundary polyline is plotted from the truncated values; a circle's
`(x_center, y_center, radius)` are unpacked unchanged and the boundary
points `center + radius * (cos θ, sin θ)` are plotted — `circleBoundary`
records those unchanged parameters, the trigonometry being rendering
detail.  An arity mismatch is unreachable after validation; the embedding
returns an empty polyline there. -/
def drawAOI (aoi : AOIDef) : DrawCmd :=
  match aoi.shape, aoi.coordinates with
  | Shape.rectangle, [c1, c2, c3, c4] =>
    let x1 : ℚ := pyInt c1
    let x2 : ℚ := pyInt c2
    let y1 : ℚ := pyInt c3
    let y2 : ℚ := pyInt c4
    DrawCmd.polyline [x1, x2, x2, x1, x1] [y1, y1, y2, y2, y1]
  | Shape.circle, [cx, cy, r] => DrawCmd.circleBoundary cx cy r
  | _, _ => DrawCmd.polyline [] []

/-- Embedding of `overlay_aoi` (plotting.py lines 105-156): validate the AOI
definitions and the screen dimensions (both validators spec-modelled,
utility.py absent from src/), then draw each AOI in order. -/
def overlay_aoi (aois : List AOIDef) (screenH screenW : ℚ) :
    Except PyError (List DrawCmd) :=
  if aois.all (aoiValid screenH screenW) then
    match screenDimensionsValidation screenH screenW with
    | Except.error e => Except.error e
    | Except.ok _ => Except.ok (aois.map drawAOI)
  else Except.error PyError.validationError

/-- Embedding of `plot_heatmap` (plotting.py lines 158-212).  In source
order: drop NaN rows, drop rows outside the inclusive screen bounds,
resolve `bins`, compute the 2-d histogram, then overlay the AOIs when
given.  The result records the rows and bin counts fed to the histogram
together with the AOI drawing commands. -/
def plot_heatmap (rows : List GazeRow) (screenH screenW : ℚ)
    (aois : Option (List AOIDef)) (bins : BinsArg) :
    Except PyError (List GazeRow × ℤ × ℤ × List DrawCmd) :=
  let clean := heatClean screenH screenW rows
  match binsResolve screenH screenW bins with
  | Except.error e => Except.error e
  | Except.ok (b1, b2) =>
    match histogram2d clean b1 b2 with
    | Except.error e => Except.error e
    | Except.ok (rs, b1, b2) =>
      match aois with
      | none => Except.ok (rs, b1, b2, [])
      | some as' =>
        match overlay_aoi as' screenH screenW with
        | Except.error e => Except.error e
        | Except.ok cmds => Except.ok (rs, b1, b2, cmds)

/-- Modelled from the spec: the AOI membership test of the aggregation core
(processing.py, absent from src/).  "For a rectangle AOI: point (x, y) is
inside iff x1 ≤ x < x2 and y1 ≤ y < y2 (upper bound exclusive, lower
inclusive).  For a circle AOI: point (x, y) is inside iff
(x − cx)² + (y − cy)² ≤ r²." -/
def insideAOI (aoi : AOIDef) (x y : ℚ) : Bool :=
  match aoi.shape, aoi.coordinates with
  | Shape.rectangle, [x1, x2, y1, y2] =>
    decide (x1 ≤ x ∧ x < x2 ∧ y1 ≤ y ∧ y < y2)
  | Shape.circle, [cx, cy, r] =>
    decide ((x - cx) ^ 2 + (y - cy) ^ 2 ≤ r ^ 2)
  | _, _ => false

/-- Python `int()` agrees with the floor on nonnegative rationals. -/
theorem pyInt_eq_floor (q : ℚ) (h : 0 ≤ q) : pyInt q = ⌊q⌋ := by
  rw [Rat.floor_def, pyInt,
    Int.tdiv_eq_ediv (Rat.num_nonneg.mpr h) (Int.ofNat_nonneg q.den)]

/-- Membership in the scatter-cleaned list, for a row with both coordinates
present: kept iff the row occurs and both coordinates are inside the
half-open screen box. -/
theorem mem_scatterClean_of_some (screenH screenW : ℚ) (rows : List GazeRow)
    (r : GazeRow) (x y : ℚ) (hx : r.x = some x) (hy : r.y = some y) :
    r ∈ scatterClean screenH screenW rows ↔
      r ∈ rows ∧ (0 ≤ x ∧ x < screenW ∧ 0 ≤ y ∧ y < screenH) := by
  simp only [scatterClean, List.mem_filter, scatterOutOfBounds, nanLt, nanGe, hx, hy,
    Bool.not_eq_true', Bool.or_eq_false_iff, decide_eq_false_iff_not, not_lt, not_le]
  tauto

/-- Membership in the heatmap-cleaned list, for a row with both coordinates
present: kept iff the row occurs and both coordinates are inside the closed
screen box. -/
theorem mem_heatClean_of_some (screenH screenW : ℚ) (rows : List GazeRow)
    (r : GazeRow) (x y : ℚ) (hx : r.x = some x) (hy : r.y = some y) :
    r ∈ heatClean screenH screenW rows ↔
      r ∈ rows ∧ (0 ≤ x ∧ x ≤ screenW ∧ 0 ≤ y ∧ y ≤ screenH) := by
  simp only [heatClean, heatDropna, heatInBounds, List.mem_filter, nanGe, nanLe, hx, hy,
    Option.isSome_some, Bool.and_eq_true, decide_eq_true_eq, and_true]
  tauto

example : scatterClean 100 100 [⟨some 100, some 50, 0, 0⟩] = [] := by decide

example : heatClean 100 100 [⟨some 100, some 50, 0, 0⟩] =
    [⟨some 100, some 50, 0, 0⟩] := by decide

example : scatterClean 100 100 [⟨none, some 5, 0, 0⟩] = [⟨none, some 5, 0, 0⟩] := by
  decide

example : insideAOI ⟨Shape.rectangle, [10, 20, 10, 20]⟩ 10 10 = true := by decide

example : insideAOI ⟨Shape.rectangle, [10, 20, 10, 20]⟩ 20 20 = false := by decide

example : plot_as_scatter ⟨DataKind.durwt, [⟨some 200, some 5, 0, 1⟩]⟩ 100 100 false =
    Except.error PyError.valueError := by rfl

example : binsResolve 100 37 BinsArg.noneArg = Except.ok (1, 5) := by
  show Except.ok (pyInt ((37 : ℚ) / 20), pyInt ((100 : ℚ) / 20)) = Except.ok (1, 5)
  rw [show ((37 : ℚ) / 20) = Rat.divInt 37 20 by rw [Rat.divInt_eq_div]; norm_num,
    show ((100 : ℚ) / 20) = 5 by norm_num]
  rfl

/-- C1: the claim that `plot_as_scatter` and `plot_heatmap` keep the same
set of samples is false: on screen (100, 100) the sample (100, 50) is
dropped by `plot_as_scatter` (`x >= screen_width`, line 46) but kept by
`plot_heatmap` (`x <= screen_width`, line 176). -/
theorem C1_bounds_filters_differ :
    scatterClean 100 100 [⟨some 100, some 50, 0, 0⟩] ≠
      heatClean 100 100 [⟨some 100, some 50, 0, 0⟩] := by
  decide

/-- C1 (amended): the two out-of-screen filters agree only one way — every
sample with present (non-NaN) coordinates kept by `plot_as_scatter` is also
kept by `plot_heatmap`, whose bounds are inclusive where the scatter bounds
are strict. -/
theorem C1_scatter_kept_subset_heat_kept (screenH screenW : ℚ)
    (rows : List GazeRow) (r : GazeRow) (x y : ℚ)
    (hx : r.x = some x) (hy : r.y = some y)
    (hmem : r ∈ scatterClean screenH screenW rows) :
    r ∈ heatClean screenH screenW rows := by
  rw [mem_scatterClean_of_some _ _ _ _ _ _ hx hy] at hmem
  rw [mem_heatClean_of_some _ _ _ _ _ _ hx hy]
  exact ⟨hmem.1, hmem.2.1, le_of_lt hmem.2.2.1, hmem.2.2.2.1, le_of_lt hmem.2.2.2.2⟩

/-- C1 witness: the in-bounds sample (5, 6) kept by the scatter filter is
kept by the heatmap filter. -/
theorem C1_scatter_kept_subset_heat_kept_witness :
    (⟨some 5, some 6, 0, 0⟩ : GazeRow) ∈ heatClean 100 100 [⟨some 5, some 6, 0, 0⟩] :=
  C1_scatter_kept_subset_heat_kept 100 100 [⟨some 5, some 6, 0, 0⟩]
    ⟨some 5, some 6, 0, 0⟩ 5 6 rfl rfl (by decide)

/-- C2: the claim that both plotting operations exclude NaN rows is false
for `plot_as_scatter`: a row with a NaN x-coordinate is never flagged by
the out-of-bounds test (every comparison with NaN is false), so it stays
in the cleaned data. -/
theorem C2_scatter_keeps_nan_row :
    (⟨none, some 5, 0, 0⟩ : GazeRow) ∈ scatterClean 100 100 [⟨none, some 5, 0, 0⟩] := by
  decide

/-- C2 (amended): `plot_heatmap` excludes NaN rows before processing
(`dropna`, line 170); `plot_as_scatter` does not — its out-of-bounds test
never fires on a NaN coordinate, so a row whose present coordinates are in
bounds is kept whatever its NaN coordinates; neither operation raises on
account of NaN rows (the filters are total). -/
theorem C2_nan_handling (screenH screenW : ℚ) (rows : List GazeRow)
    (r : GazeRow) (hmem : r ∈ rows) :
    (∀ s ∈ heatClean screenH screenW rows, s.x.isSome ∧ s.y.isSome) ∧
    (r.x = none → r.y = none → r ∈ scatterClean screenH screenW rows) ∧
    (∀ y, r.x = none → r.y = some y → 0 ≤ y → y < screenH →
      r ∈ scatterClean screenH screenW rows) ∧
    (∀ x, r.x = some x → r.y = none → 0 ≤ x → x < screenW →
      r ∈ scatterClean screenH screenW rows) := by
  refine ⟨?_, ?_, ?_, ?_⟩
  · intro s hs
    simp only [heatClean, heatDropna, List.mem_filter, Bool.and_eq_true] at hs
    exact ⟨hs.1.2.1, hs.1.2.2⟩
  · intro hx hy
    simp [scatterClean, List.mem_filter, scatterOutOfBounds, nanLt, nanGe, hx, hy, hmem]
  · intro y hx hy h0 h1
    simp only [scatterClean, List.mem_filter, scatterOutOfBounds, nanLt, nanGe, hx, hy,
      Bool.not_eq_true', Bool.or_eq_false_iff, decide_eq_false_iff_not, not_lt, not_le]
    tauto
  · intro x hx hy h0 h1
    simp only [scatterClean, List.mem_filter, scatterOutOfBounds, nanLt, nanGe, hx, hy,
      Bool.not_eq_true', Bool.or_eq_false_iff, decide_eq_false_iff_not, not_lt, not_le]
    tauto

/-- C2 witness: a fully-NaN row on a 100 × 100 screen survives the scatter
cleaning. -/
theorem C2_nan_handling_witness :
    (⟨none, none, 0, 0⟩ : GazeRow) ∈ scatterClean 100 100 [⟨none, none, 0, 0⟩] :=
  (C2_nan_handling 100 100 [⟨none, none, 0, 0⟩] ⟨none, none, 0, 0⟩
    (by decide)).2.1 rfl rfl

/-- C3: `plot_as_scatter` keeps a sample with present coordinates iff it is
in bounds — dropped exactly when `x < 0`, `x >= screen_width`, `y < 0` or
`y >= screen_height` — and, on `xpos`/`ypos` data with valid screen
dimensions, the whole call completes without error, returning exactly the
cleaned rows. -/
theorem C3_scatter_drops_exactly_out_of_bounds (screenH screenW : ℚ)
    (data : Dataset) (r : GazeRow) (x y : ℚ)
    (hx : r.x = some x) (hy : r.y = some y) :
    (r ∈ scatterClean screenH screenW data.rows ↔
      r ∈ data.rows ∧ (0 ≤ x ∧ x < screenW ∧ 0 ≤ y ∧ y < screenH)) ∧
    (data.kind = DataKind.plain → 0 < screenH → 0 < screenW →
      plot_as_scatter data screenH screenW false =
        Except.ok (scatterClean screenH screenW data.rows)) := by
  constructor
  · exact mem_scatterClean_of_some screenH screenW data.rows r x y hx hy
  · intro hkind h1 h2
    simp [plot_as_scatter, screenDimensionsValidation, if_pos (And.intro h1 h2), hkind,
      scatterRender]

/-- C3 witness: the in-bounds sample (5, 6) is kept and the plain-data call
succeeds on a 100 × 100 screen. -/
theorem C3_scatter_drops_exactly_out_of_bounds_witness :
    plot_as_scatter ⟨DataKind.plain, [⟨some 5, some 6, 0, 0⟩]⟩ 100 100 false =
      Except.ok (scatterClean 100 100 [⟨some 5, some 6, 0, 0⟩]) :=
  (C3_scatter_drops_exactly_out_of_bounds 100 100
    ⟨DataKind.plain, [⟨some 5, some 6, 0, 0⟩]⟩ ⟨some 5, some 6, 0, 0⟩ 5 6 rfl rfl).2
    rfl (by norm_num) (by norm_num)

/-- C6: the out-of-screen cleaning of `plot_as_scatter` is idempotent —
cleaning an already-cleaned dataset removes nothing. -/
theorem C6_scatterClean_idempotent (screenH screenW : ℚ) (rows : List GazeRow) :
    scatterClean screenH screenW (scatterClean screenH screenW rows) =
      scatterClean screenH screenW rows := by
  simp [scatterClean, List.filter_filter]

/-- A completed render with no AOI argument turns into AttributeError when
the AOI argument is given: the overlay step is reached only after every
other failure point. -/
theorem scatterRender_aoi_attribute_error (kind : DataKind)
    (clean res : List GazeRow)
    (hok : scatterRender kind clean false = Except.ok res) :
    scatterRender kind clean true = Except.error PyError.attributeError := by
  cases kind with
  | plain => simp [scatterRender]
  | durwt =>
    unfold scatterRender at hok ⊢
    generalize hmap : clean.map (fun r => r.etime - r.stime) = ds' at hok ⊢
    cases ds' with
    | nil => simp at hok
    | cons d ds =>
      by_cases hz : pyRound2 (pyMax d ds) = 0
      · simp [hz] at hok
      · simp [hz]

/-- A successful duration-weighted render needs a non-empty cleaned list:
on an empty one the duration list is empty and the render errors. -/
theorem scatterRender_durwt_ok_ne_nil (clean res : List GazeRow) (aoiGiven : Bool)
    (hok : scatterRender DataKind.durwt clean aoiGiven = Except.ok res) :
    clean ≠ [] := by
  intro h
  subst h
  simp [scatterRender] at hok

/-- C4: whenever a `plot_as_scatter` call would run to completion (the same
call with no AOI definitions succeeds), passing AOI definitions makes it
raise AttributeError instead: line 92 looks up the nonexistent `Axes`
method `ax.overlay` rather than calling the module function `overlay_aoi`,
so AOI overlays are never drawn by `plot_as_scatter`. -/
theorem C4_scatter_aoi_raises_attribute_error (data : Dataset)
    (screenH screenW : ℚ) (res : List GazeRow)
    (hok : plot_as_scatter data screenH screenW false = Except.ok res) :
    plot_as_scatter data screenH screenW true = Except.error PyError.attributeError := by
  unfold plot_as_scatter at hok ⊢
  generalize hval : screenDimensionsValidation screenH screenW = v at hok ⊢
  cases v with
  | error e => simp at hok
  | ok u =>
    exact scatterRender_aoi_attribute_error data.kind
      (scatterClean screenH screenW data.rows) res hok

/-- C4 witness: on an empty `xpos`/`ypos` dataset and a 10 × 10 screen the
AOI-free call succeeds, and the call with AOI definitions raises
AttributeError. -/
theorem C4_scatter_aoi_raises_attribute_error_witness :
    plot_as_scatter ⟨DataKind.plain, []⟩ 10 10 true =
      Except.error PyError.attributeError :=
  C4_scatter_aoi_raises_attribute_error ⟨DataKind.plain, []⟩ 10 10 [] (by rfl)

/-- C5: `plot_heatmap`'s bins resolution raises ValueError exactly when
`bins` is neither None, nor an integer, nor a length-2 tuple/list/array;
None gives the default `int(width/20)` by `int(height/20)`, an integer is
used for both dimensions, and a 2-element sequence gives the x and y
counts respectively. -/
theorem C5_bins_resolution (screenH screenW : ℚ) :
    (∀ bins, binsResolve screenH screenW bins = Except.error PyError.valueError ↔
      ¬(bins = BinsArg.noneArg ∨ (∃ n, bins = BinsArg.intArg n) ∨
        (∃ b1 b2, bins = BinsArg.seqArg [b1, b2]))) ∧
    binsResolve screenH screenW BinsArg.noneArg =
      Except.ok (pyInt (screenW / 20), pyInt (screenH / 20)) ∧
    (∀ n, binsResolve screenH screenW (BinsArg.intArg n) = Except.ok (n, n)) ∧
    (∀ b1 b2, binsResolve screenH screenW (BinsArg.seqArg [b1, b2]) =
      Except.ok (b1, b2)) := by
  refine ⟨?_, rfl, fun n => rfl, fun b1 b2 => rfl⟩
  intro bins
  cases bins with
  | noneArg => simp [binsResolve]
  | intArg n => simp [binsResolve]
  | otherArg => simp [binsResolve]
  | seqArg l =>
    rcases l with _ | ⟨a, _ | ⟨b, _ | ⟨c, t⟩⟩⟩ <;> simp [binsResolve]

/-- C9: on `axp`/`ayp` (duration-weighted) data, `plot_as_scatter` succeeds
only when at least one sample survives the out-of-bounds cleaning: with
zero surviving rows the duration list is empty and Python `max([])` raises
ValueError (line 79), so success requires a non-empty in-bounds sample
set. -/
theorem C9_durwt_requires_nonempty_clean (data : Dataset)
    (screenH screenW : ℚ) (aoiGiven : Bool)
    (hkind : data.kind = DataKind.durwt) :
    (0 < screenH → 0 < screenW → scatterClean screenH screenW data.rows = [] →
      plot_as_scatter data screenH screenW aoiGiven =
        Except.error PyError.valueError) ∧
    (∀ res, plot_as_scatter data screenH screenW aoiGiven = Except.ok res →
      scatterClean screenH screenW data.rows ≠ []) := by
  constructor
  · intro h1 h2 hempty
    simp [plot_as_scatter, screenDimensionsValidation, if_pos (And.intro h1 h2),
      hkind, hempty, scatterRender]
  · intro res hok hempty
    unfold plot_as_scatter at hok
    generalize hval : screenDimensionsValidation screenH screenW = v at hok
    cases v with
    | error e => simp at hok
    | ok u =>
      rw [hkind] at hok
      exact scatterRender_durwt_ok_ne_nil _ res aoiGiven hok hempty

/-- C9 witness: a single out-of-bounds duration-weighted sample on a
100 × 100 screen leaves zero rows, and the call raises ValueError. -/
theorem C9_durwt_requires_nonempty_clean_witness :
    plot_as_scatter ⟨DataKind.durwt, [⟨some 200, some 5, 0, 1⟩]⟩ 100 100 false =
      Except.error PyError.valueError :=
  (C9_durwt_requires_nonempty_clean ⟨DataKind.durwt, [⟨some 200, some 5, 0, 1⟩]⟩
    100 100 false rfl).1 (by norm_num) (by norm_num) (by decide)

/-- C7: in `overlay_aoi`, a rectangle AOI's four coordinates are cast to
integers (`map(int, coordinates)`, line 139) before the boundary polyline
is plotted, while a circle AOI's center and radius are used unchanged
(line 146). -/
theorem C7_overlay_coordinate_normalization (aois : List AOIDef)
    (screenH screenW : ℚ) (cmds : List DrawCmd) (i : ℕ) (aoi : AOIDef)
    (hok : overlay_aoi aois screenH screenW = Except.ok cmds)
    (hget : aois[i]? = some aoi) :
    (∀ c1 c2 c3 c4, aoi.shape = Shape.rectangle →
      aoi.coordinates = [c1, c2, c3, c4] →
      cmds[i]? = some (DrawCmd.polyline
        [(pyInt c1 : ℚ), (pyInt c2 : ℚ), (pyInt c2 : ℚ), (pyInt c1 : ℚ), (pyInt c1 : ℚ)]
        [(pyInt c3 : ℚ), (pyInt c3 : ℚ), (pyInt c4 : ℚ), (pyInt c4 : ℚ), (pyInt c3 : ℚ)])) ∧
    (∀ cx cy r, aoi.shape = Shape.circle → aoi.coordinates = [cx, cy, r] →
      cmds[i]? = some (DrawCmd.circleBoundary cx cy r)) := by
  have hcmds : cmds = aois.map drawAOI := by
    unfold overlay_aoi at hok
    by_cases hall : aois.all (aoiValid screenH screenW)
    · rw [if_pos hall] at hok
      generalize hval : screenDimensionsValidation screenH screenW = v at hok
      cases v with
      | error e => simp at hok
      | ok u => exact (Except.ok.injEq _ _ |>.mp hok).symm
    · rw [if_neg hall] at hok
      simp at hok
  subst hcmds
  constructor
  · intro c1 c2 c3 c4 hshape hco
    rw [List.getElem?_map, hget]
    obtain ⟨sh, co⟩ := aoi
    simp only at hshape hco
    subst hshape hco
    rfl
  · intro cx cy r hshape hco
    rw [List.getElem?_map, hget]
    obtain ⟨sh, co⟩ := aoi
    simp only at hshape hco
    subst hshape hco
    rfl

/-- C7 witness: a single rectangle AOI (10, 20, 10, 20) on a 100 × 100
screen yields the boundary polyline through the integer-cast corners. -/
theorem C7_overlay_coordinate_normalization_witness :
    overlay_aoi [⟨Shape.rectangle, [10, 20, 10, 20]⟩] 100 100 =
      Except.ok [DrawCmd.polyline [10, 20, 20, 10, 10] [10, 10, 20, 20, 10]] ∧
    ([DrawCmd.polyline [10, 20, 20, 10, 10] [10, 10, 20, 20, 10]] :
        List DrawCmd)[0]? =
      some (DrawCmd.polyline
        [(pyInt 10 : ℚ), pyInt 20, pyInt 20, pyInt 10, pyInt 10]
        [(pyInt 10 : ℚ), pyInt 10, pyInt 20, pyInt 20, pyInt 10]) :=
  ⟨by rfl,
    (C7_overlay_coordinate_normalization [⟨Shape.rectangle, [10, 20, 10, 20]⟩]
      100 100 [DrawCmd.polyline [10, 20, 20, 10, 10] [10, 10, 20, 20, 10]] 0
      ⟨Shape.rectangle, [10, 20, 10, 20]⟩ (by rfl) rfl).1 10 20 10 20 rfl rfl⟩

/-- C8: the AOI membership test — a point is inside a rectangle
(x1, x2, y1, y2) iff x1 ≤ x < x2 and y1 ≤ y < y2 (lower bounds inclusive,
upper bounds exclusive), and inside a circle (cx, cy, r) iff
(x − cx)² + (y − cy)² ≤ r² (boundary inclusive); in particular, for the
rectangle (10, 20, 10, 20) the points (10, 10) and (19, 19) are inside and
(20, 20) is outside. -/
theorem C8_membership_semantics :
    (∀ x1 x2 y1 y2 x y : ℚ,
      insideAOI ⟨Shape.rectangle, [x1, x2, y1, y2]⟩ x y = true ↔
        (x1 ≤ x ∧ x < x2 ∧ y1 ≤ y ∧ y < y2)) ∧
    (∀ cx cy r x y : ℚ,
      insideAOI ⟨Shape.circle, [cx, cy, r]⟩ x y = true ↔
        (x - cx) ^ 2 + (y - cy) ^ 2 ≤ r ^ 2) ∧
    insideAOI ⟨Shape.rectangle, [10, 20, 10, 20]⟩ 10 10 = true ∧
    insideAOI ⟨Shape.rectangle, [10, 20, 10, 20]⟩ 19 19 = true ∧
    insideAOI ⟨Shape.rectangle, [10, 20, 10, 20]⟩ 20 20 = false := by
  refine ⟨?_, ?_, by decide, by decide, by decide⟩
  · intro x1 x2 y1 y2 x y
    simp [insideAOI]
  · intro cx cy r x y
    simp [insideAOI]

/-- C10: with `bins = None`, `plot_heatmap` uses `int(screen_width / 20)`
bins in x and `int(screen_height / 20)` in y — the floors of the
dimensions divided by 20 — so a valid default-bins histogram needs both
dimensions at least 20: a smaller dimension gives a zero bin count and the
histogram computation raises. -/
theorem C10_default_bins (screenH screenW : ℚ) (rows : List GazeRow)
    (aois : Option (List AOIDef)) (h0 : 0 ≤ screenH) (w0 : 0 ≤ screenW) :
    binsResolve screenH screenW BinsArg.noneArg =
      Except.ok (⌊screenW / 20⌋, ⌊screenH / 20⌋) ∧
    ((20 ≤ screenW ∧ 20 ≤ screenH) ↔
      (1 ≤ ⌊screenW / 20⌋ ∧ 1 ≤ ⌊screenH / 20⌋)) ∧
    (screenW < 20 ∨ screenH < 20 →
      plot_heatmap rows screenH screenW aois BinsArg.noneArg =
        Except.error PyError.valueError) ∧
    (∀ res, plot_heatmap rows screenH screenW aois BinsArg.noneArg =
        Except.ok res → 20 ≤ screenW ∧ 20 ≤ screenH) := by
  have hwdiv : (0 : ℚ) ≤ screenW / 20 := div_nonneg w0 (by norm_num)
  have hhdiv : (0 : ℚ) ≤ screenH / 20 := div_nonneg h0 (by norm_num)
  have hwfloor : 1 ≤ ⌊screenW / 20⌋ ↔ 20 ≤ screenW := by
    rw [Int.le_floor]
    push_cast
    rw [le_div_iff₀ (by norm_num : (0 : ℚ) < 20)]
    constructor <;> intro h <;> linarith
  have hhfloor : 1 ≤ ⌊screenH / 20⌋ ↔ 20 ≤ screenH := by
    rw [Int.le_floor]
    push_cast
    rw [le_div_iff₀ (by norm_num : (0 : ℚ) < 20)]
    constructor <;> intro h <;> linarith
  have hpy : binsResolve screenH screenW BinsArg.noneArg =
      Except.ok (⌊screenW / 20⌋, ⌊screenH / 20⌋) := by
    simp [binsResolve, pyInt_eq_floor _ hwdiv, pyInt_eq_floor _ hhdiv]
  refine ⟨hpy, ?_, ?_, ?_⟩
  · constructor
    · intro h
      exact ⟨hwfloor.mpr h.1, hhfloor.mpr h.2⟩
    · intro h
      exact ⟨hwfloor.mp h.1, hhfloor.mp h.2⟩
  · intro hsmall
    have hcond : ¬(1 ≤ ⌊screenW / 20⌋ ∧ 1 ≤ ⌊screenH / 20⌋) := by
      rcases hsmall with hw | hh
      · intro hc
        exact absurd (hwfloor.mp hc.1) (not_le_of_lt hw)
      · intro hc
        exact absurd (hhfloor.mp hc.2) (not_le_of_lt hh)
    unfold plot_heatmap
    rw [hpy]
    simp [histogram2d, hcond]
  · intro res hok
    by_cases hcond : 1 ≤ ⌊screenW / 20⌋ ∧ 1 ≤ ⌊screenH / 20⌋
    · exact ⟨hwfloor.mp hcond.1, hhfloor.mp hcond.2⟩
    · unfold plot_heatmap at hok
      rw [hpy] at hok
      simp [histogram2d, hcond] at hok

/-- C10 witness: on a 100 × 100 screen the default bins are
`(⌊100/20⌋, ⌊100/20⌋)`. -/
theorem C10_default_bins_witness :
    binsResolve 100 100 BinsArg.noneArg =
      Except.ok (⌊(100 : ℚ) / 20⌋, ⌊(100 : ℚ) / 20⌋) :=
  (C10_default_bins 100 100 [] none (by norm_num) (by norm_num)).1

end VisualEyes
